import Mathlib

/-!
Shallow embedding of the weather-db pipeline (generate_data.py, query.py,
upload_dynamo.py).  Python floats are modelled as exact rationals, Python
dicts as insertion-ordered association lists, and the random draws and the
external HTTP responses as explicit oracle parameters.
-/

namespace WeatherDB

/-- GRID_DEG configuration constant (generate_data.py line 17, query.py line 9). -/
def GRID_DEG : ℚ := 18/100

/-- ANCHOR_PERCENTAGE configuration constant (generate_data.py line 16). -/
def ANCHOR_PERCENTAGE : ℚ := 1/20

/-- Lookup in an insertion-ordered association list (Python dict read `m[k]` / `k in m`). -/
def alookup {α : Type} (k : String) : List (String × α) → Option α
  | [] => none
  | (k', v) :: rest => if k' = k then some v else alookup k rest

/-- Update/insert in an insertion-ordered association list (Python dict write `m[k] = v`:
an existing key keeps its position, a new key is appended at the end). -/
def aset {α : Type} (k : String) (v : α) : List (String × α) → List (String × α)
  | [] => [(k, v)]
  | (k', w) :: rest => if k' = k then (k', v) :: rest else (k', w) :: aset k v rest

/-- Python's banker's rounding of a rational to the nearest integer
(round-half-to-even, as in `round(x)` on an exactly represented value). -/
def roundHalfEven (q : ℚ) : ℤ :=
  if q - ⌊q⌋ < 1/2 then ⌊q⌋
  else if 1/2 < q - ⌊q⌋ then ⌊q⌋ + 1
  else if ⌊q⌋ % 2 = 0 then ⌊q⌋ else ⌊q⌋ + 1

/-- Python `round(x, 1)`: round to one decimal place, half to even. -/
def pyRound1 (q : ℚ) : ℚ := (roundHalfEven (q * 10) : ℚ) / 10

/-- One row of the worldcities.csv input (columns used by generate_data.py).
A NaN population is modelled as `none`. -/
structure CityRow where
  lat : ℚ
  lng : ℚ
  population : Option ℚ
  city_ascii : String
  country : String
deriving DecidableEq, Repr

/-- One entry of `grid_map` / `unique_grids` in generate_data.py (lines 68-76):
the weather representative of a grid cell.  `IsAnchor` is attached later by the
sampling passes; it starts out absent, modelled as `false`. -/
structure CityData where
  GridID : String
  City : String
  LocationName : String
  Country : String
  Lat : ℚ
  Lon : ℚ
  Population : ℚ
  IsAnchor : Bool := false
deriving DecidableEq, Repr

/-- Population of a row with pandas NaN treated as 0
(`pop if not pd.isna(pop) else 0`, generate_data.py line 75). -/
def popOf (row : CityRow) : ℚ :=
  match row.population with
  | some p => p
  | none => 0

/-- Grid x-index `gx = math.floor(lon / GRID_DEG)` (generate_data.py line 44). -/
def gridX (lon : ℚ) : ℤ := ⌊lon / GRID_DEG⌋

/-- Grid y-index `gy = math.floor(lat / GRID_DEG)` (generate_data.py line 45). -/
def gridY (lat : ℚ) : ℤ := ⌊lat / GRID_DEG⌋

/-- GridID string as computed at generation time, generate_data.py lines 44-46:
`grid_id = f"GRID#{gx}#{gy}"`. -/
def gen_grid_id (lat lon : ℚ) : String :=
  let gx := gridX lon
  let gy := gridY lat
  s!"GRID#{gx}#{gy}"

/-- GridID string as computed by the query surface, query.py lines 88-92
(`search_by_coords`). -/
def search_by_coords (lat lon : ℚ) : String :=
  let gx := ⌊lon / GRID_DEG⌋
  let gy := ⌊lat / GRID_DEG⌋
  s!"GRID#{gx}#{gy}"

/-- The `city_data` dict built for each row (generate_data.py lines 43-76):
grid id, names, CELL-CENTER coordinates and NaN-safe population. -/
def cityDataOfRow (row : CityRow) : CityData :=
  let gx := gridX row.lng
  let gy := gridY row.lat
  { GridID := s!"GRID#{gx}#{gy}"
    City := row.city_ascii
    LocationName := row.city_ascii
    Country := row.country
    Lat := (gy * GRID_DEG) + (GRID_DEG/2)
    Lon := (gx * GRID_DEG) + (GRID_DEG/2)
    Population := popOf row
    IsAnchor := false }

/-- One step of the collision logic (generate_data.py lines 78-82): keep the
stored representative unless the new row's population is strictly greater. -/
def gridStep (m : List (String × CityData)) (row : CityRow) : List (String × CityData) :=
  let city_data := cityDataOfRow row
  match alookup city_data.GridID m with
  | some cur =>
      if city_data.Population > cur.Population then aset city_data.GridID city_data m else m
  | none => aset city_data.GridID city_data m

/-- The `grid_map` dict after the row loop of generate_data.py lines 39-82. -/
def buildGridMap (rows : List CityRow) : List (String × CityData) :=
  rows.foldl gridStep []

/-- Comparator for sampling Pass 1 (generate_data.py line 89):
`unique_grids.sort(key=lambda x: (-x['Lat'], x['Lon']))`, i.e. descending
latitude, then ascending longitude. -/
def sortKeyLE (a b : CityData) : Bool :=
  decide (b.Lat < a.Lat ∨ (a.Lat = b.Lat ∧ a.Lon ≤ b.Lon))

/-- The Pass-1 stride `int(1 / ANCHOR_PERCENTAGE)` (generate_data.py line 90). -/
def stride : ℕ := (⌊1 / ANCHOR_PERCENTAGE⌋).toNat

/-- Sampling Pass 1 marking loop (generate_data.py lines 94-99): grid `i` gets
`IsAnchor = ((i - start_index) % stride == 0)`, with Python's nonnegative
modulo for a positive modulus (Lean's `Int.emod`). -/
def pass1Mark (gs : List CityData) (start_index strd : ℕ) : List CityData :=
  gs.enum.map (fun p => { p.2 with IsAnchor := decide (((p.1 : ℤ) - start_index) % strd = 0) })

/-- Pass-2 target count `int(len(unique_grids) * ANCHOR_PERCENTAGE)`
(generate_data.py line 104). -/
def pass2Target (n : ℕ) : ℕ := (⌊(n : ℚ) * ANCHOR_PERCENTAGE⌋).toNat

/-- Comparator realising `non_anchors.sort(key=lambda x: x['Population'], reverse=True)`
(generate_data.py line 106): descending population. -/
def popGE (a b : CityData) : Bool := decide (b.Population ≤ a.Population)

/-- The non-anchor representatives in descending-population order
(generate_data.py lines 105-106). -/
def pass2Pool (gs : List CityData) : List CityData :=
  (gs.filter (fun g => !g.IsAnchor)).mergeSort popGE

/-- The representatives marked by sampling Pass 2 (generate_data.py lines 108-111):
the first `min(len(non_anchors), target_pop_count)` entries of the
descending-population pool. -/
def pass2Selected (gs : List CityData) : List CityData :=
  let pool := pass2Pool gs
  pool.take (min pool.length (pass2Target gs.length))

/-- Hourly arrays of an open-meteo payload (the fields requested in
generate_data.py line 136). -/
structure HourlySeries where
  time : List String
  temperature_2m : List ℚ
  relative_humidity_2m : List ℚ
  precipitation_probability : List ℚ
  precipitation : List ℚ
  wind_speed_10m : List ℚ
deriving DecidableEq, Repr

/-- Daily arrays of an open-meteo payload (the fields requested in
generate_data.py line 137). -/
structure DailySeries where
  time : List String
  temperature_2m_max : List ℚ
  precipitation_sum : List ℚ
  precipitation_probability_max : List ℚ
  wind_speed_10m_max : List ℚ
deriving DecidableEq, Repr

/-- A fetched forecast payload (`r.json()` of a 200 response). -/
structure Payload where
  hourly : HourlySeries
  daily : DailySeries
deriving DecidableEq, Repr

/-- The `real_data_cache` dict: GridID to fetched payload. -/
abbrev Cache := List (String × Payload)

/-- Outcome of one `requests.get` call in fetch_anchors
(generate_data.py lines 154-171): a 200 with a payload, a 429, some other
status code, or a raised exception. -/
inductive ApiResponse where
  | success (payload : Payload)
  | rateLimited
  | apiError (code : ℕ)
  | exn
deriving DecidableEq, Repr

/-- The fetch loop body of fetch_anchors (generate_data.py lines 148-171),
with the HTTP layer as an oracle `respond`.  Every iteration issues one
request (recorded in the returned list of GridIDs); a 200 stores the payload
in the cache; a 429, any other status, or an exception leaves the cache
unchanged and the loop moves on to the next grid. -/
def fetchLoop (respond : String → ApiResponse) : List CityData → Cache → Cache × List String
  | [], cache => (cache, [])
  | g :: rest, cache =>
    let r := respond g.GridID
    let cache' :=
      match r with
      | .success p => aset g.GridID p cache
      | _ => cache
    let out := fetchLoop respond rest cache'
    (out.1, g.GridID :: out.2)

/-- The fetch_anchors pass (generate_data.py lines 119-177) on an already
loaded checkpoint cache: restrict to the anchors, skip those whose GridID is
already cached, and run the fetch loop over the rest.  Returns the final
cache together with the GridIDs that were actually requested. -/
def fetch_anchors (respond : String → ApiResponse) (grids : List CityData)
    (checkpoint : Cache) : Cache × List String :=
  let anchor_grids := grids.filter (fun g => g.IsAnchor)
  let grids_to_fetch := anchor_grids.filter (fun g => (alookup g.GridID checkpoint).isNone)
  fetchLoop respond grids_to_fetch checkpoint

/-- One output record of the pipeline, a Python dict with kind-dependent
fields (generate_data.py lines 56-65, 215-229 and 234-247); fields a given
kind does not set are `none`.  `Typ` embeds the `"Type"` key. -/
structure Record where
  GridID : String
  Timestamp : String
  Typ : String
  LocationName : String
  Country : String
  Lat : ℚ
  Lon : ℚ
  IsAnchor : Option Bool := none
  Temperature : Option ℚ := none
  Humidity : Option ℚ := none
  ChanceOfRain : Option ℚ := none
  Precipitation : Option ℚ := none
  WindSpeed : Option ℚ := none
  Population : Option ℚ := none
deriving DecidableEq, Repr

/-- Squared Euclidean distance in (lat, lon) space; the k-d tree of
generate_data.py line 192 ranks anchors by Euclidean distance, and ranking by
the square is equivalent. -/
def sqDist (a b : ℚ × ℚ) : ℚ := (a.1 - b.1)^2 + (a.2 - b.2)^2

/-- Index of the nearest point (`tree.query(..., k=1)`, generate_data.py
line 202): the first index attaining the minimal distance, ties resolved to
the earlier index. -/
def nearestIdx (pt : ℚ × ℚ) : List (ℚ × ℚ) → ℕ
  | [] => 0
  | p :: rest =>
    let j := nearestIdx pt rest
    match rest[j]? with
    | some q => if sqDist pt q < sqDist pt p then j + 1 else 0
    | none => 0

/-- GridID of the nearest valid anchor of a grid
(`anchor_ids[idx]`, generate_data.py lines 202-203). -/
def nearestAnchorId (grid : CityData) (valid_anchors : List CityData) : String :=
  let idx := nearestIdx (grid.Lat, grid.Lon) (valid_anchors.map (fun g => (g.Lat, g.Lon)))
  (valid_anchors.map (fun g => g.GridID)).getD idx ""

/-- One Hourly record (generate_data.py lines 215-229). -/
def hourlyRecord (grid : CityData) (h_data : HourlySeries) (noise_factor : ℚ) (h : ℕ) : Record :=
  { GridID := grid.GridID
    Timestamp := h_data.time.getD h ""
    Typ := "Hourly"
    LocationName := grid.LocationName
    Country := grid.Country
    Lat := grid.Lat
    Lon := grid.Lon
    IsAnchor := some grid.IsAnchor
    Temperature := some (pyRound1 (h_data.temperature_2m.getD h 0 + noise_factor))
    Humidity := some (h_data.relative_humidity_2m.getD h 0)
    ChanceOfRain := some (h_data.precipitation_probability.getD h 0)
    Precipitation := some (h_data.precipitation.getD h 0)
    WindSpeed := some (pyRound1 (max 0 (h_data.wind_speed_10m.getD h 0 + noise_factor))) }

/-- One Daily record (generate_data.py lines 234-247). -/
def dailyRecord (grid : CityData) (d_data : DailySeries) (noise_factor : ℚ) (d : ℕ) : Record :=
  { GridID := grid.GridID
    Timestamp := d_data.time.getD d "" ++ "T12:00:00"
    Typ := "Daily"
    LocationName := grid.LocationName
    Country := grid.Country
    Lat := grid.Lat
    Lon := grid.Lon
    IsAnchor := some grid.IsAnchor
    Temperature := some (pyRound1 (d_data.temperature_2m_max.getD d 0 + noise_factor))
    ChanceOfRain := some (d_data.precipitation_probability_max.getD d 0)
    Precipitation := some (d_data.precipitation_sum.getD d 0)
    WindSpeed := some (pyRound1 (max 0 (d_data.wind_speed_10m_max.getD d 0 + noise_factor))) }

/-- Records emitted for one cell representative by the interpolation loop of
interpolate_and_save (generate_data.py lines 200-247).  The two random draws
of line 210 are supplied through the oracle `noise_draw`, standing for
`np.random.normal(0, 0.5) + dist * 2.0 * np.random.uniform(-1, 1)`, a value
drawn once per cell; it is only consulted on the satellite branch, mirroring
the code where `noise_factor` stays 0 for a cell equal to its nearest anchor.
If the nearest anchor id were absent from the cache (impossible when the
anchors passed in are the cache's keys) the Python code would raise; this is
modelled by emitting no records. -/
def interpolateGrid (grid : CityData) (valid_anchors : List CityData) (cache : Cache)
    (noise_draw : ℚ) : List Record :=
  let nearest_anchor_id := nearestAnchorId grid valid_anchors
  match alookup nearest_anchor_id cache with
  | none => []
  | some source_data =>
    let is_satellite := grid.GridID ≠ nearest_anchor_id
    let noise_factor := if is_satellite then noise_draw else 0
    ((List.range 24).map (fun h => hourlyRecord grid source_data.hourly noise_factor h)) ++
      ((List.range' 1 6).map (fun d => dailyRecord grid source_data.daily noise_factor d))

/-- Name sanitisation for CityLookup sort keys (upload_dynamo.py line 132):
`LocationName.replace(' ', '_').replace('#', '')`. -/
def clean_name_of (s : String) : String :=
  (s.replace " " "_").replace "#" ""

/-- Rewrite applied to each record before deduplication (upload_dynamo.py
lines 130-133): a CityLookup record's Timestamp becomes
`"0000-00-00_METADATA#" + clean_name`; other records pass unchanged. -/
def rewriteLookup (r : Record) : Record :=
  if r.Typ = "CityLookup" then
    { r with Timestamp := "0000-00-00_METADATA#" ++ clean_name_of r.LocationName }
  else r

/-- Composite-key signature `f"{record['GridID']}::{record['Timestamp']}"`
(upload_dynamo.py line 138). -/
def pkSig (r : Record) : String := r.GridID ++ "::" ++ r.Timestamp

/-- The upload loop of upload_dynamo.py lines 127-152, with the seen-key set
as a list: each record is first rewritten, then skipped (and counted) if its
composite key was already seen, otherwise recorded as written.  Returns the
records submitted to the batch writer and the duplicate count. -/
def uploadLoop : List Record → List String → List Record × ℕ
  | [], _ => ([], 0)
  | r :: rest, seen =>
    let r' := rewriteLookup r
    let pk := pkSig r'
    if pk ∈ seen then
      let out := uploadLoop rest seen
      (out.1, out.2 + 1)
    else
      let out := uploadLoop rest (pk :: seen)
      (r' :: out.1, out.2)

/-- The upload pass over the artifact's records (upload_dynamo.py `upload`),
starting from an empty seen-key set. -/
def upload (records : List Record) : List Record × ℕ :=
  uploadLoop records []

/-! Concrete sample data used by witnesses and counterexamples. -/

/-- Sample hourly timestamp array: 24 distinct minute-resolution strings of
length 16, the shape open-meteo returns for `hourly.time`. -/
def sampleHourlyTimes : List String :=
  ["2026-01-01T00:00", "2026-01-01T01:00", "2026-01-01T02:00", "2026-01-01T03:00",
   "2026-01-01T04:00", "2026-01-01T05:00", "2026-01-01T06:00", "2026-01-01T07:00",
   "2026-01-01T08:00", "2026-01-01T09:00", "2026-01-01T10:00", "2026-01-01T11:00",
   "2026-01-01T12:00", "2026-01-01T13:00", "2026-01-01T14:00", "2026-01-01T15:00",
   "2026-01-01T16:00", "2026-01-01T17:00", "2026-01-01T18:00", "2026-01-01T19:00",
   "2026-01-01T20:00", "2026-01-01T21:00", "2026-01-01T22:00", "2026-01-01T23:00"]

/-- Sample daily timestamp array: 7 distinct date strings of length 10. -/
def sampleDailyTimes : List String :=
  ["2026-01-01", "2026-01-02", "2026-01-03", "2026-01-04", "2026-01-05",
   "2026-01-06", "2026-01-07"]

/-- Sample fetched payload with 24 hourly and 7 daily samples. -/
def samplePayload : Payload :=
  { hourly :=
      { time := sampleHourlyTimes
        temperature_2m := List.replicate 24 (314/100)
        relative_humidity_2m := List.replicate 24 (50 : ℚ)
        precipitation_probability := List.replicate 24 (10 : ℚ)
        precipitation := List.replicate 24 (0 : ℚ)
        wind_speed_10m := List.replicate 24 (41/10) }
    daily :=
      { time := sampleDailyTimes
        temperature_2m_max := List.replicate 7 (25 : ℚ)
        precipitation_sum := List.replicate 7 (1 : ℚ)
        precipitation_probability_max := List.replicate 7 (30 : ℚ)
        wind_speed_10m_max := List.replicate 7 (8 : ℚ) } }

/-- Sample anchor representative whose fetch succeeded: its GridID is a key of
`sampleCache`. -/
def anchorGrid : CityData :=
  { GridID := "GRID#0#0", City := "A", LocationName := "A", Country := "X",
    Lat := 9/100, Lon := 9/100, Population := 100, IsAnchor := true }

/-- Sample representative marked as an anchor in the sampling passes whose
fetch failed: its GridID is absent from `sampleCache`, so it is interpolated
as a satellite of `anchorGrid`. -/
def satGrid : CityData :=
  { GridID := "GRID#1#0", City := "B", LocationName := "B", Country := "X",
    Lat := 9/100, Lon := 27/100, Population := 50, IsAnchor := true }

/-- Sample real-data cache holding only `anchorGrid`'s payload. -/
def sampleCache : Cache := [("GRID#0#0", samplePayload)]

/-! Helper lemmas about the association-list operations and rounding. -/

lemma alookup_aset_self {α : Type} (k : String) (v : α) (m : List (String × α)) :
    alookup k (aset k v m) = some v := by
  induction m with
  | nil => simp [aset, alookup]
  | cons p rest ih =>
    obtain ⟨a, b⟩ := p
    by_cases h : a = k
    · simp [aset, alookup, h]
    · simp [aset, alookup, h, ih]

lemma alookup_aset_ne {α : Type} {k k' : String} (h : k' ≠ k) (v : α)
    (m : List (String × α)) : alookup k (aset k' v m) = alookup k m := by
  induction m with
  | nil => simp [aset, alookup, h]
  | cons p rest ih =>
    obtain ⟨a, b⟩ := p
    by_cases ha : a = k'
    · subst ha
      simp [aset, alookup, h]
    · by_cases hk : a = k
      · simp [aset, alookup, ha, hk, Ne.symm h]
      · simp [aset, alookup, ha, hk, ih]

lemma roundHalfEven_nonneg {q : ℚ} (h : 0 ≤ q) : 0 ≤ roundHalfEven q := by
  have h0 : (0 : ℤ) ≤ ⌊q⌋ := Int.floor_nonneg.mpr h
  unfold roundHalfEven
  split
  · exact h0
  · split
    · omega
    · split <;> omega

lemma pyRound1_nonneg {q : ℚ} (h : 0 ≤ q) : 0 ≤ pyRound1 q := by
  unfold pyRound1
  have h1 : (0 : ℤ) ≤ roundHalfEven (q * 10) := roundHalfEven_nonneg (by positivity)
  have h2 : (0 : ℚ) ≤ (roundHalfEven (q * 10) : ℚ) := by exact_mod_cast h1
  positivity

/-- C2: for every latitude and longitude, the generation-time grid mapping and
the query surface's `search_by_coords` compute the identical GridID string
`GRID#gx#gy` with `gx = floor(lon / G)`, `gy = floor(lat / G)`, `G = 0.18`,
and the generation-time cell center is `((gy*G)+G/2, (gx*G)+G/2)` in
(lat, lon); in particular lon = 139.69, lat = 35.68 yields gx = 776,
gy = 198, GridID `GRID#776#198`, center lon = 139.77, lat = 35.73. -/
theorem grid_formula_agree :
    (∀ lat lon : ℚ, gen_grid_id lat lon = search_by_coords lat lon) ∧
    (∀ row : CityRow, (cityDataOfRow row).GridID = gen_grid_id row.lat row.lng ∧
        (cityDataOfRow row).Lat = (gridY row.lat) * GRID_DEG + GRID_DEG/2 ∧
        (cityDataOfRow row).Lon = (gridX row.lng) * GRID_DEG + GRID_DEG/2) ∧
    gridX (13969/100) = 776 ∧ gridY (3568/100) = 198 ∧
    gen_grid_id (3568/100) (13969/100) = "GRID#776#198" ∧
    search_by_coords (3568/100) (13969/100) = "GRID#776#198" ∧
    (776 : ℚ) * GRID_DEG + GRID_DEG/2 = 13977/100 ∧
    (198 : ℚ) * GRID_DEG + GRID_DEG/2 = 3573/100 := by
  have hx : gridX (13969/100) = 776 := by norm_num [gridX, GRID_DEG]
  have hy : gridY (3568/100) = 198 := by norm_num [gridY, GRID_DEG]
  refine ⟨fun _ _ => rfl, fun row => ⟨rfl, rfl, rfl⟩, hx, hy, ?_, ?_,
    by norm_num [GRID_DEG], by norm_num [GRID_DEG]⟩
  · simp only [gen_grid_id]
    rw [hx, hy]
    rfl
  · simp only [search_by_coords]
    rw [show ⌊(13969/100 : ℚ) / GRID_DEG⌋ = 776 from hx,
      show ⌊(3568/100 : ℚ) / GRID_DEG⌋ = 198 from hy]
    rfl

/-- C9: for every emitted Hourly and Daily record, whatever noise term was
drawn and whatever wind-speed value the source series contained, the
WindSpeed field is never negative. -/
theorem emitted_windspeed_nonneg (grid : CityData) (anchors : List CityData)
    (cache : Cache) (draw : ℚ) (r : Record)
    (hr : r ∈ interpolateGrid grid anchors cache draw) (w : ℚ)
    (hw : r.WindSpeed = some w) : 0 ≤ w := by
  rcases hsrc : alookup (nearestAnchorId grid anchors) cache with _ | src
  · simp only [interpolateGrid, hsrc, List.not_mem_nil] at hr
  · simp only [interpolateGrid, hsrc, List.mem_append, List.mem_map] at hr
    rcases hr with ⟨h, _, rfl⟩ | ⟨d, _, rfl⟩
    · simp only [hourlyRecord, Option.some.injEq] at hw
      subst hw
      exact pyRound1_nonneg (le_max_left 0 _)
    · simp only [dailyRecord, Option.some.injEq] at hw
      subst hw
      exact pyRound1_nonneg (le_max_left 0 _)

/-- Witness for C9: the theorem applied to the first hourly record
interpolated for the satellite cell `satGrid` with noise draw 1 yields the
nonnegativity of its emitted wind speed. -/
theorem emitted_windspeed_nonneg_witness :
    0 ≤ pyRound1 (max 0 (samplePayload.hourly.wind_speed_10m.getD 0 0 + 1)) :=
  emitted_windspeed_nonneg satGrid [anchorGrid] sampleCache 1
    (hourlyRecord satGrid samplePayload.hourly 1 0)
    (by simp only [interpolateGrid]
        exact List.mem_append_left _ (List.mem_map.mpr ⟨0, by simp, rfl⟩))
    (pyRound1 (max 0 (samplePayload.hourly.wind_speed_10m.getD 0 0 + 1))) rfl

lemma interp_filter_hourly (grid : CityData) (hs : HourlySeries) (ds : DailySeries) (nf : ℚ) :
    List.filter (fun r => decide (r.Typ = "Hourly"))
      ((List.range 24).map (fun h => hourlyRecord grid hs nf h) ++
        (List.range' 1 6).map (fun d => dailyRecord grid ds nf d))
      = (List.range 24).map (fun h => hourlyRecord grid hs nf h) := by
  rw [List.filter_append]
  rw [List.filter_eq_self.mpr, List.filter_eq_nil_iff.mpr, List.append_nil]
  · intro r hr
    obtain ⟨d, _, rfl⟩ := List.mem_map.mp hr
    simp [dailyRecord]
  · intro r hr
    obtain ⟨h, _, rfl⟩ := List.mem_map.mp hr
    simp [hourlyRecord]

lemma interp_filter_daily (grid : CityData) (hs : HourlySeries) (ds : DailySeries) (nf : ℚ) :
    List.filter (fun r => decide (r.Typ = "Daily"))
      ((List.range 24).map (fun h => hourlyRecord grid hs nf h) ++
        (List.range' 1 6).map (fun d => dailyRecord grid ds nf d))
      = (List.range' 1 6).map (fun d => dailyRecord grid ds nf d) := by
  have h1 : List.filter (fun r => decide (r.Typ = "Daily"))
      ((List.range 24).map (fun h => hourlyRecord grid hs nf h)) = [] := by
    rw [List.filter_eq_nil_iff]
    intro r hr
    obtain ⟨h, _, rfl⟩ := List.mem_map.mp hr
    simp [hourlyRecord]
  have h2 : List.filter (fun r => decide (r.Typ = "Daily"))
      ((List.range' 1 6).map (fun d => dailyRecord grid ds nf d))
      = (List.range' 1 6).map (fun d => dailyRecord grid ds nf d) := by
    rw [List.filter_eq_self]
    intro r hr
    obtain ⟨d, _, rfl⟩ := List.mem_map.mp hr
    simp [dailyRecord]
  rw [List.filter_append, h1, h2, List.nil_append]

lemma range1_6_map_getD (time : List String) (h7 : 7 ≤ time.length) :
    (List.range' 1 6).map (fun d => time.getD d "") = (time.drop 1).take 6 := by
  apply List.ext_getElem
  · simp [List.length_take, List.length_drop, List.length_range']
    omega
  · intro i h1 h2
    have h6 : i < 6 := by simpa using h1
    have ht : 1 + i < time.length := by omega
    rw [List.getElem_map, List.getElem_range', one_mul, List.getElem_take, List.getElem_drop]
    exact List.getD_eq_getElem time "" ht

/-- C10: for every cell representative processed by the interpolator with at
least 24 hourly and at least 7 daily samples in the source payload, exactly
24 Hourly and exactly 6 Daily records are emitted; the Daily records are
taken from daily-series indices 1 through 6 (skipping index 0), each Daily
Timestamp being the daily date string with `T12:00:00` appended, so (for
minute-resolution hourly timestamps and date-only daily timestamps) a cell's
Daily keys cannot collide with its Hourly keys. -/
theorem interp_record_counts (grid : CityData) (anchors : List CityData) (cache : Cache)
    (draw : ℚ) (src : Payload)
    (hsrc : alookup (nearestAnchorId grid anchors) cache = some src)
    (hht : 24 ≤ src.hourly.time.length) (hdt : 7 ≤ src.daily.time.length) :
    ((interpolateGrid grid anchors cache draw).filter
        (fun r => decide (r.Typ = "Hourly"))).length = 24 ∧
    ((interpolateGrid grid anchors cache draw).filter
        (fun r => decide (r.Typ = "Daily"))).length = 6 ∧
    ((interpolateGrid grid anchors cache draw).filter
        (fun r => decide (r.Typ = "Daily"))).map (fun r => r.Timestamp)
      = ((src.daily.time.drop 1).take 6).map (fun t => t ++ "T12:00:00") ∧
    ((∀ t ∈ src.hourly.time, t.length = 16) → (∀ t ∈ src.daily.time, t.length = 10) →
      ∀ rh ∈ interpolateGrid grid anchors cache draw,
        ∀ rd ∈ interpolateGrid grid anchors cache draw,
          rh.Typ = "Hourly" → rd.Typ = "Daily" → rh.Timestamp ≠ rd.Timestamp) := by
  refine ⟨?_, ?_, ?_, ?_⟩
  · simp only [interpolateGrid, hsrc]
    rw [interp_filter_hourly]
    simp
  · simp only [interpolateGrid, hsrc]
    rw [interp_filter_daily]
    simp
  · simp only [interpolateGrid, hsrc]
    rw [interp_filter_daily, List.map_map]
    have key : (List.range' 1 6).map (fun d => src.daily.time.getD d "")
        = (src.daily.time.drop 1).take 6 := range1_6_map_getD _ hdt
    rw [← key, List.map_map]
    apply List.map_congr_left
    intro d _
    simp [Function.comp, dailyRecord]
  · intro hfh hfd rh hrh rd hrd hh hd
    simp only [interpolateGrid, hsrc, List.mem_append, List.mem_map] at hrh hrd
    rcases hrh with ⟨h, hmem, rfl⟩ | ⟨d, _, rfl⟩
    · rcases hrd with ⟨h', _, rfl⟩ | ⟨d', hmem', rfl⟩
      · simp [hourlyRecord] at hd
      · rw [List.mem_range] at hmem
        rw [List.mem_range'] at hmem'
        obtain ⟨i, hi6, rfl⟩ := hmem'
        have hhl : h < src.hourly.time.length := by omega
        have hdl : 1 + 1 * i < src.daily.time.length := by omega
        have lh : (hourlyRecord grid src.hourly
            (if grid.GridID ≠ nearestAnchorId grid anchors then draw else 0) h).Timestamp.length
            = 16 := by
          simp only [hourlyRecord]
          rw [List.getD_eq_getElem _ _ hhl]
          exact hfh _ (List.getElem_mem hhl)
        have ld : (dailyRecord grid src.daily
            (if grid.GridID ≠ nearestAnchorId grid anchors then draw else 0)
            (1 + 1 * i)).Timestamp.length = 19 := by
          simp only [dailyRecord]
          rw [String.length_append, List.getD_eq_getElem _ _ hdl]
          rw [hfd _ (List.getElem_mem hdl)]
          rfl
        intro heq
        rw [heq] at lh
        rw [lh] at ld
        exact absurd ld (by norm_num)
    · simp [dailyRecord] at hh

/-- Witness for C10: the theorem applied to the anchor cell `anchorGrid` with
the sample cache yields the Hourly record count of 24. -/
theorem interp_record_counts_witness :
    ((interpolateGrid anchorGrid [anchorGrid] sampleCache 5).filter
        (fun r => decide (r.Typ = "Hourly"))).length = 24 :=
  (interp_record_counts anchorGrid [anchorGrid] sampleCache 5 samplePayload rfl
    (by decide) (by decide)).1

/-- C1 (amended): for every cell representative processed by the interpolator
whose nearest valid anchor is cached: every emitted record carries
`IsAnchor = ` the representative's sampling-pass flag (not the branch
outcome); if the cell's own GridID equals the nearest anchor's GridID no
noise is added — temperatures and wind speeds are the anchor's values rounded
to one decimal (wind floored at 0 before rounding) and the other fields are
copied exactly; otherwise the single per-cell noise draw is added to every
temperature and wind-speed value before the same rounding, and humidity,
precipitation and precipitation probability are copied unmodified. -/
theorem interp_noise_and_flag (grid : CityData) (anchors : List CityData) (cache : Cache)
    (draw : ℚ) (src : Payload)
    (hsrc : alookup (nearestAnchorId grid anchors) cache = some src) :
    ∀ r ∈ interpolateGrid grid anchors cache draw,
      r.IsAnchor = some grid.IsAnchor ∧
      (grid.GridID = nearestAnchorId grid anchors →
        ((r.Typ = "Hourly" → ∃ h, h < 24 ∧
            r.Timestamp = src.hourly.time.getD h "" ∧
            r.Temperature = some (pyRound1 (src.hourly.temperature_2m.getD h 0)) ∧
            r.Humidity = some (src.hourly.relative_humidity_2m.getD h 0) ∧
            r.ChanceOfRain = some (src.hourly.precipitation_probability.getD h 0) ∧
            r.Precipitation = some (src.hourly.precipitation.getD h 0) ∧
            r.WindSpeed = some (pyRound1 (max 0 (src.hourly.wind_speed_10m.getD h 0)))) ∧
         (r.Typ = "Daily" → ∃ d, 1 ≤ d ∧ d < 7 ∧
            r.Timestamp = src.daily.time.getD d "" ++ "T12:00:00" ∧
            r.Temperature = some (pyRound1 (src.daily.temperature_2m_max.getD d 0)) ∧
            r.ChanceOfRain = some (src.daily.precipitation_probability_max.getD d 0) ∧
            r.Precipitation = some (src.daily.precipitation_sum.getD d 0) ∧
            r.WindSpeed = some (pyRound1 (max 0 (src.daily.wind_speed_10m_max.getD d 0)))))) ∧
      (grid.GridID ≠ nearestAnchorId grid anchors →
        ((r.Typ = "Hourly" → ∃ h, h < 24 ∧
            r.Timestamp = src.hourly.time.getD h "" ∧
            r.Temperature = some (pyRound1 (src.hourly.temperature_2m.getD h 0 + draw)) ∧
            r.Humidity = some (src.hourly.relative_humidity_2m.getD h 0) ∧
            r.ChanceOfRain = some (src.hourly.precipitation_probability.getD h 0) ∧
            r.Precipitation = some (src.hourly.precipitation.getD h 0) ∧
            r.WindSpeed = some (pyRound1 (max 0 (src.hourly.wind_speed_10m.getD h 0 + draw)))) ∧
         (r.Typ = "Daily" → ∃ d, 1 ≤ d ∧ d < 7 ∧
            r.Timestamp = src.daily.time.getD d "" ++ "T12:00:00" ∧
            r.Temperature = some (pyRound1 (src.daily.temperature_2m_max.getD d 0 + draw)) ∧
            r.ChanceOfRain = some (src.daily.precipitation_probability_max.getD d 0) ∧
            r.Precipitation = some (src.daily.precipitation_sum.getD d 0) ∧
            r.WindSpeed = some (pyRound1 (max 0 (src.daily.wind_speed_10m_max.getD d 0 + draw)))))) := by
  intro r hr
  by_cases hsat : grid.GridID = nearestAnchorId grid anchors
  · have hr' : r ∈ (List.range 24).map (fun h => hourlyRecord grid src.hourly 0 h) ++
        (List.range' 1 6).map (fun d => dailyRecord grid src.daily 0 d) := by
      simpa only [interpolateGrid, hsrc, if_neg (not_not_intro hsat)] using hr
    rcases List.mem_append.mp hr' with hmem | hmem
    · obtain ⟨h, hh24, rfl⟩ := List.mem_map.mp hmem
      rw [List.mem_range] at hh24
      refine ⟨rfl, fun _ => ⟨fun _ => ⟨h, hh24, rfl, by simp [hourlyRecord], rfl, rfl, rfl,
        by simp [hourlyRecord]⟩, fun hT => by simp [hourlyRecord] at hT⟩,
        fun hne => absurd hsat hne⟩
    · obtain ⟨d, hd, rfl⟩ := List.mem_map.mp hmem
      rw [List.mem_range'] at hd
      obtain ⟨i, hi, rfl⟩ := hd
      refine ⟨rfl, fun _ => ⟨fun hT => by simp [dailyRecord] at hT,
        fun _ => ⟨1 + 1 * i, by omega, by omega, rfl, by simp [dailyRecord], rfl, rfl,
          by simp [dailyRecord]⟩⟩,
        fun hne => absurd hsat hne⟩
  · have hr' : r ∈ (List.range 24).map (fun h => hourlyRecord grid src.hourly draw h) ++
        (List.range' 1 6).map (fun d => dailyRecord grid src.daily draw d) := by
      simpa only [interpolateGrid, hsrc, if_pos hsat] using hr
    rcases List.mem_append.mp hr' with hmem | hmem
    · obtain ⟨h, hh24, rfl⟩ := List.mem_map.mp hmem
      rw [List.mem_range] at hh24
      refine ⟨rfl, fun he => absurd he hsat,
        fun _ => ⟨fun _ => ⟨h, hh24, rfl, rfl, rfl, rfl, rfl, rfl⟩,
          fun hT => by simp [hourlyRecord] at hT⟩⟩
    · obtain ⟨d, hd, rfl⟩ := List.mem_map.mp hmem
      rw [List.mem_range'] at hd
      obtain ⟨i, hi, rfl⟩ := hd
      refine ⟨rfl, fun he => absurd he hsat,
        fun _ => ⟨fun hT => by simp [dailyRecord] at hT,
          fun _ => ⟨1 + 1 * i, by omega, by omega, rfl, rfl, rfl, rfl, rfl⟩⟩⟩

/-- Counterexample for C1 as stated: `satGrid` is a satellite of `anchorGrid`
(its GridID differs from its nearest valid anchor's and the cache is
non-empty), yet every emitted record carries `IsAnchor = true`, because the
code copies the sampling-pass flag; and for `anchorGrid` (its own GridID is
the nearest anchor's) the first emitted Temperature is the source value
rounded to one decimal, 3.1, not the unmodified source value 3.14. -/
theorem interp_noise_and_flag_counterexample :
    (satGrid.GridID ≠ nearestAnchorId satGrid [anchorGrid]) ∧
    (interpolateGrid satGrid [anchorGrid] sampleCache 1 ≠ []) ∧
    (∀ r ∈ interpolateGrid satGrid [anchorGrid] sampleCache 1, r.IsAnchor = some true) ∧
    (anchorGrid.GridID = nearestAnchorId anchorGrid [anchorGrid]) ∧
    ((interpolateGrid anchorGrid [anchorGrid] sampleCache 1).head?
      = some (hourlyRecord anchorGrid samplePayload.hourly 0 0)) ∧
    ((hourlyRecord anchorGrid samplePayload.hourly 0 0).Temperature = some (31/10)) ∧
    (samplePayload.hourly.temperature_2m.getD 0 0 = 314/100) ∧
    ((31/10 : ℚ) ≠ 314/100) := by
  refine ⟨by decide, by decide, by decide, by decide, rfl, ?_, ?_, by norm_num⟩
  · show some (pyRound1 (samplePayload.hourly.temperature_2m.getD 0 0 + 0)) = some (31/10)
    have hv : samplePayload.hourly.temperature_2m.getD 0 0 = 314/100 := by
      simp [samplePayload, List.replicate_succ, List.getD_cons_zero]
    rw [hv]
    norm_num [pyRound1, roundHalfEven]
  · simp [samplePayload, List.replicate_succ, List.getD_cons_zero]

/-- Witness for C1's amended theorem: applied to the anchor cell `anchorGrid`
and its own first hourly record, it yields the record's IsAnchor field. -/
theorem interp_noise_and_flag_witness :
    (hourlyRecord anchorGrid samplePayload.hourly 0 0).IsAnchor = some true :=
  (interp_noise_and_flag anchorGrid [anchorGrid] sampleCache 1 samplePayload rfl
    (hourlyRecord anchorGrid samplePayload.hourly 0 0)
    (by simp only [interpolateGrid]
        exact List.mem_append_left _ (List.mem_map.mpr ⟨0, by simp, rfl⟩))).1

lemma fetchLoop_requests (respond : String → ApiResponse) (gs : List CityData) (cache : Cache) :
    (fetchLoop respond gs cache).2 = gs.map (fun g => g.GridID) := by
  induction gs generalizing cache with
  | nil => rfl
  | cons g rest ih => simp [fetchLoop, ih]

lemma fetchLoop_preserves (respond : String → ApiResponse) (gs : List CityData) (cache : Cache)
    (k : String) (v : Payload) (hk : alookup k cache = some v)
    (hall : ∀ g ∈ gs, g.GridID ≠ k) :
    alookup k (fetchLoop respond gs cache).1 = some v := by
  induction gs generalizing cache with
  | nil => exact hk
  | cons g rest ih =>
    have hgk : g.GridID ≠ k := hall g (List.mem_cons_self g rest)
    have hrest : ∀ g' ∈ rest, g'.GridID ≠ k := fun g' hg' => hall g' (List.mem_cons_of_mem g hg')
    simp only [fetchLoop]
    cases hre : respond g.GridID with
    | success p => exact ih (aset g.GridID p cache) (by rw [alookup_aset_ne hgk]; exact hk) hrest
    | rateLimited => exact ih cache hk hrest
    | apiError code => exact ih cache hk hrest
    | exn => exact ih cache hk hrest

lemma fetchLoop_no_success (respond : String → ApiResponse) (gs : List CityData) (cache : Cache)
    (k : String) (hfail : ∀ p, respond k ≠ ApiResponse.success p) :
    alookup k (fetchLoop respond gs cache).1 = alookup k cache := by
  induction gs generalizing cache with
  | nil => rfl
  | cons g rest ih =>
    simp only [fetchLoop]
    cases hre : respond g.GridID with
    | success p =>
      by_cases hgk : g.GridID = k
      · rw [hgk] at hre
        exact absurd hre (hfail p)
      · rw [ih (aset g.GridID p cache), alookup_aset_ne hgk]
    | rateLimited => exact ih cache
    | apiError code => exact ih cache
    | exn => exact ih cache

/-- C7: on resume, every anchor whose GridID is present in the loaded
checkpoint cache is never re-requested — requests are issued exactly for the
anchor cells whose GridID is absent from the loaded cache — and fetching
never removes or overwrites an entry already in the cache. -/
theorem fetch_resume (respond : String → ApiResponse) (grids : List CityData)
    (checkpoint : Cache) :
    (fetch_anchors respond grids checkpoint).2
      = ((grids.filter (fun g => g.IsAnchor)).filter
          (fun g => (alookup g.GridID checkpoint).isNone)).map (fun g => g.GridID) ∧
    (∀ k v, alookup k checkpoint = some v →
      alookup k (fetch_anchors respond grids checkpoint).1 = some v ∧
      k ∉ (fetch_anchors respond grids checkpoint).2) := by
  have hreq : (fetch_anchors respond grids checkpoint).2
      = ((grids.filter (fun g => g.IsAnchor)).filter
          (fun g => (alookup g.GridID checkpoint).isNone)).map (fun g => g.GridID) :=
    fetchLoop_requests respond _ checkpoint
  refine ⟨hreq, fun k v hk => ⟨?_, ?_⟩⟩
  · refine fetchLoop_preserves respond _ checkpoint k v hk ?_
    intro g hg
    have hnone := List.of_mem_filter hg
    intro hgk
    rw [hgk, hk] at hnone
    simp at hnone
  · rw [hreq]
    intro hmem
    obtain ⟨g, hg, hgk⟩ := List.mem_map.mp hmem
    have hnone := List.of_mem_filter hg
    rw [hgk, hk] at hnone
    simp at hnone

/-- C4 (amended): on a rate-limit response the fetcher logs the condition and
continues the loop — every grid in the fetch list is requested regardless of
any 429 among the responses — and the 429 stores nothing: for any key whose
requests never succeed, the cache entry after the loop is exactly what it was
before, so the accumulated cache state is preserved uncorrupted. -/
theorem fetch_429_continues (respond : String → ApiResponse) (grids : List CityData)
    (cache : Cache) :
    (fetchLoop respond grids cache).2 = grids.map (fun g => g.GridID) ∧
    (∀ k, (∀ p, respond k ≠ ApiResponse.success p) →
      alookup k (fetchLoop respond grids cache).1 = alookup k cache) := by
  exact ⟨fetchLoop_requests respond grids cache,
    fun k hfail => fetchLoop_no_success respond grids cache k hfail⟩

/-- Response oracle for the rate-limit scenario: the first sample anchor is
answered 429, every other request succeeds. -/
def respond429 : String → ApiResponse :=
  fun id => if id = "GRID#0#0" then ApiResponse.rateLimited else ApiResponse.success samplePayload

/-- Witness for C4's amended theorem: with `respond429`, both anchors are
requested and the 429-answered key stays uncached. -/
theorem fetch_429_continues_witness :
    (fetchLoop respond429 [anchorGrid, satGrid] ([] : Cache)).2 = ["GRID#0#0", "GRID#1#0"] ∧
    alookup "GRID#0#0" (fetchLoop respond429 [anchorGrid, satGrid] ([] : Cache)).1 = none :=
  ⟨((fetch_429_continues respond429 [anchorGrid, satGrid] []).1).trans rfl,
    ((fetch_429_continues respond429 [anchorGrid, satGrid] []).2 "GRID#0#0"
      (fun p h => by simp [respond429] at h)).trans rfl⟩

/-- Counterexample for C4 as stated: the first anchor's request is answered
429, yet the fetcher still issues a request for the second anchor — the
request list is not truncated at the 429 — and even caches the second
anchor's successful payload.  The fetch loop therefore does not halt. -/
theorem fetch_429_halt_counterexample :
    respond429 "GRID#0#0" = ApiResponse.rateLimited ∧
    (fetch_anchors respond429 [anchorGrid, satGrid] []).2 = ["GRID#0#0", "GRID#1#0"] ∧
    (fetch_anchors respond429 [anchorGrid, satGrid] []).2 ≠ ["GRID#0#0"] ∧
    alookup "GRID#1#0" (fetch_anchors respond429 [anchorGrid, satGrid] []).1
      = some samplePayload := by
  exact ⟨rfl, rfl, by decide, rfl⟩

/-- Witness for C7: with the sample checkpoint already holding the first
anchor, the theorem yields that its entry is preserved and it is never
re-requested. -/
theorem fetch_resume_witness :
    alookup "GRID#0#0" (fetch_anchors respond429 [anchorGrid, satGrid] sampleCache).1
      = some samplePayload ∧
    "GRID#0#0" ∉ (fetch_anchors respond429 [anchorGrid, satGrid] sampleCache).2 :=
  (fetch_resume respond429 [anchorGrid, satGrid] sampleCache).2 "GRID#0#0" samplePayload rfl

lemma uploadLoop_written_notin_seen (records : List Record) :
    ∀ (seen : List String) (r : Record), r ∈ (uploadLoop records seen).1 → pkSig r ∉ seen := by
  induction records with
  | nil =>
    intro seen r hr
    simp [uploadLoop] at hr
  | cons r0 rest ih =>
    intro seen r hr
    simp only [uploadLoop] at hr
    by_cases hp : pkSig (rewriteLookup r0) ∈ seen
    · rw [if_pos hp] at hr
      exact ih seen r hr
    · rw [if_neg hp] at hr
      rcases List.mem_cons.mp hr with rfl | hr'
      · exact hp
      · have hn := ih _ r hr'
        intro hin
        exact hn (List.mem_cons_of_mem _ hin)

lemma uploadLoop_pairwise (records : List Record) :
    ∀ seen : List String,
      List.Pairwise (fun a b => pkSig a ≠ pkSig b) (uploadLoop records seen).1 := by
  induction records with
  | nil =>
    intro seen
    simp [uploadLoop]
  | cons r0 rest ih =>
    intro seen
    simp only [uploadLoop]
    by_cases hp : pkSig (rewriteLookup r0) ∈ seen
    · rw [if_pos hp]
      exact ih seen
    · rw [if_neg hp]
      refine List.Pairwise.cons ?_ (ih _)
      intro b hb heq
      have hnb := uploadLoop_written_notin_seen rest _ b hb
      exact hnb (List.mem_cons.mpr (Or.inl heq.symm))

lemma uploadLoop_count (records : List Record) :
    ∀ seen : List String,
      (uploadLoop records seen).1.length + (uploadLoop records seen).2 = records.length := by
  induction records with
  | nil =>
    intro seen
    rfl
  | cons r0 rest ih =>
    intro seen
    simp only [uploadLoop]
    by_cases hp : pkSig (rewriteLookup r0) ∈ seen
    · rw [if_pos hp]
      have := ih seen
      simp only [List.length_cons]
      omega
    · rw [if_neg hp]
      have := ih (pkSig (rewriteLookup r0) :: seen)
      simp only [List.length_cons]
      omega

lemma uploadLoop_rewritten (records : List Record) :
    ∀ (seen : List String) (r : Record), r ∈ (uploadLoop records seen).1 →
      ∃ r₀, r = rewriteLookup r₀ := by
  induction records with
  | nil =>
    intro seen r hr
    simp [uploadLoop] at hr
  | cons r0 rest ih =>
    intro seen r hr
    simp only [uploadLoop] at hr
    by_cases hp : pkSig (rewriteLookup r0) ∈ seen
    · rw [if_pos hp] at hr
      exact ih seen r hr
    · rw [if_neg hp] at hr
      rcases List.mem_cons.mp hr with rfl | hr'
      · exact ⟨r0, rfl⟩
      · exact ih _ r hr'

lemma rewriteLookup_citylookup (r₀ : Record) (h : (rewriteLookup r₀).Typ = "CityLookup") :
    (rewriteLookup r₀).Timestamp
      = "0000-00-00_METADATA#" ++ clean_name_of (rewriteLookup r₀).LocationName := by
  by_cases hc : r₀.Typ = "CityLookup"
  · simp [rewriteLookup, hc]
  · rw [rewriteLookup, if_neg hc] at h
    exact absurd h hc

/-- C8: the persister first rewrites the key's secondary component of every
CityLookup record to `0000-00-00_METADATA#` followed by the sanitized
location name, then skips and counts every record whose composite
(GridID, Timestamp) key was already seen in this run, so no two records
submitted for writing share a (GridID, Timestamp) pair and the written and
skipped counts add up to the input size. -/
theorem upload_dedup (records : List Record) :
    List.Pairwise (fun a b => (a.GridID, a.Timestamp) ≠ (b.GridID, b.Timestamp))
      (upload records).1 ∧
    (∀ r ∈ (upload records).1, r.Typ = "CityLookup" →
      r.Timestamp = "0000-00-00_METADATA#" ++ clean_name_of r.LocationName) ∧
    (upload records).1.length + (upload records).2 = records.length := by
  refine ⟨?_, ?_, uploadLoop_count records []⟩
  · refine (uploadLoop_pairwise records []).imp ?_
    intro a b hab heq
    apply hab
    have h1 : a.GridID = b.GridID := congrArg Prod.fst heq
    have h2 : a.Timestamp = b.Timestamp := congrArg Prod.snd heq
    rw [pkSig, pkSig, h1, h2]
  · intro r hr hc
    obtain ⟨r₀, rfl⟩ := uploadLoop_rewritten records [] r hr
    exact rewriteLookup_citylookup r₀ hc

/-- Sample CityLookup record for the upload witness. -/
def cityRec : Record :=
  { GridID := "GRID#9#9", Timestamp := "0000-00-00_METADATA", Typ := "CityLookup",
    LocationName := "Sample Town", Country := "X", Lat := 0, Lon := 0, Population := some 5 }

/-- Witness for C8: the theorem applied to a one-record upload containing a
CityLookup record yields its rewritten name-qualified sort key. -/
theorem upload_dedup_witness :
    (rewriteLookup cityRec).Timestamp
      = "0000-00-00_METADATA#" ++ clean_name_of (rewriteLookup cityRec).LocationName :=
  (upload_dedup [cityRec]).2.1 (rewriteLookup cityRec) (List.mem_cons_self _ _) rfl

lemma buildGridMap_concat (rows : List CityRow) (r : CityRow) :
    buildGridMap (rows ++ [r]) = gridStep (buildGridMap rows) r := by
  unfold buildGridMap
  rw [List.foldl_append]
  rfl

lemma alookup_gridStep_ne (m : List (String × CityData)) (r : CityRow) (gid : String)
    (hg : (cityDataOfRow r).GridID ≠ gid) :
    alookup gid (gridStep m r) = alookup gid m := by
  rcases hm : alookup (cityDataOfRow r).GridID m with _ | cur
  · simp only [gridStep, hm]
    exact alookup_aset_ne hg _ m
  · simp only [gridStep, hm]
    split
    · exact alookup_aset_ne hg _ m
    · rfl

lemma buildGridMap_none (rows : List CityRow) (gid : String)
    (h : alookup gid (buildGridMap rows) = none) :
    ∀ row ∈ rows, (cityDataOfRow row).GridID ≠ gid := by
  induction rows using List.reverseRecOn with
  | nil =>
    intro row hrow
    simp at hrow
  | append_singleton rows r ih =>
    rw [buildGridMap_concat] at h
    have hg : (cityDataOfRow r).GridID ≠ gid := by
      intro hg
      rcases hm : alookup (cityDataOfRow r).GridID (buildGridMap rows) with _ | cur
      · have hx : alookup gid (gridStep (buildGridMap rows) r) = some (cityDataOfRow r) := by
          simp only [gridStep, hm]
          rw [← hg]
          exact alookup_aset_self _ _ _
        rw [hx] at h
        exact Option.noConfusion h
      · by_cases hgt : (cityDataOfRow r).Population > cur.Population
        · have hx : alookup gid (gridStep (buildGridMap rows) r) = some (cityDataOfRow r) := by
            simp only [gridStep, hm]
            rw [if_pos hgt, ← hg]
            exact alookup_aset_self _ _ _
          rw [hx] at h
          exact Option.noConfusion h
        · have hx : alookup gid (gridStep (buildGridMap rows) r) = some cur := by
            simp only [gridStep, hm]
            rw [if_neg hgt, ← hg]
            exact hm
          rw [hx] at h
          exact Option.noConfusion h
    have h' : alookup gid (buildGridMap rows) = none := by
      rw [← alookup_gridStep_ne (buildGridMap rows) r gid hg]
      exact h
    intro row hrow
    rcases List.mem_append.mp hrow with hin | hin
    · exact ih h' row hin
    · rw [List.mem_singleton.mp hin]
      exact hg

/-- C5: for every cell, the stored representative dominates (in population,
with a missing value treated as 0) every point mapped to that cell, and it is
the first-seen point among those achieving that population — the stored
representative is replaced only on strictly greater population, so ties break
in favor of the first-seen point. -/
theorem dedup_representative (rows : List CityRow) (gid : String) (rep : CityData)
    (h : alookup gid (buildGridMap rows) = some rep) :
    (∀ row ∈ rows, (cityDataOfRow row).GridID = gid → popOf row ≤ rep.Population) ∧
    (∃ l1 row l2, rows = l1 ++ row :: l2 ∧ (cityDataOfRow row).GridID = gid ∧
      rep = cityDataOfRow row ∧
      (∀ r' ∈ l1, (cityDataOfRow r').GridID = gid → popOf r' < popOf row)) := by
  induction rows using List.reverseRecOn generalizing rep with
  | nil => simp [buildGridMap, alookup] at h
  | append_singleton rows r ih =>
    rw [buildGridMap_concat] at h
    by_cases hg : (cityDataOfRow r).GridID = gid
    · rcases hm : alookup (cityDataOfRow r).GridID (buildGridMap rows) with _ | cur
      · have hnone : alookup gid (buildGridMap rows) = none := hg ▸ hm
        have hnorow := buildGridMap_none rows gid hnone
        have hx : alookup gid (gridStep (buildGridMap rows) r) = some (cityDataOfRow r) := by
          simp only [gridStep, hm]
          rw [← hg]
          exact alookup_aset_self _ _ _
        have hrep : rep = cityDataOfRow r := (Option.some.inj (hx.symm.trans h)).symm
        subst hrep
        constructor
        · intro row hrow hrowgid
          rcases List.mem_append.mp hrow with hin | hin
          · exact absurd hrowgid (hnorow row hin)
          · rw [List.mem_singleton.mp hin]
            exact le_refl _
        · exact ⟨rows, r, [], rfl, hg, rfl, fun r' hr' hgid => absurd hgid (hnorow r' hr')⟩
      · have hcur : alookup gid (buildGridMap rows) = some cur := hg ▸ hm
        obtain ⟨ihdom, l1, row0, l2, hsplit, hg0, hrep0, hstrict⟩ := ih cur hcur
        by_cases hgt : (cityDataOfRow r).Population > cur.Population
        · have hx : alookup gid (gridStep (buildGridMap rows) r) = some (cityDataOfRow r) := by
            simp only [gridStep, hm]
            rw [if_pos hgt, ← hg]
            exact alookup_aset_self _ _ _
          have hrep : rep = cityDataOfRow r := (Option.some.inj (hx.symm.trans h)).symm
          subst hrep
          constructor
          · intro row hrow hrowgid
            rcases List.mem_append.mp hrow with hin | hin
            · exact le_trans (ihdom row hin hrowgid) (le_of_lt hgt)
            · rw [List.mem_singleton.mp hin]
              exact le_refl _
          · refine ⟨rows, r, [], rfl, hg, rfl, ?_⟩
            intro r' hr' hgid
            exact lt_of_le_of_lt (ihdom r' hr' hgid) hgt
        · have hx : alookup gid (gridStep (buildGridMap rows) r) = some cur := by
            simp only [gridStep, hm]
            rw [if_neg hgt]
            exact hcur
          have hrep : rep = cur := (Option.some.inj (hx.symm.trans h)).symm
          subst hrep
          constructor
          · intro row hrow hrowgid
            rcases List.mem_append.mp hrow with hin | hin
            · exact ihdom row hin hrowgid
            · rw [List.mem_singleton.mp hin]
              exact not_lt.mp hgt
          · refine ⟨l1, row0, l2 ++ [r], ?_, hg0, hrep0, hstrict⟩
            rw [hsplit]
            simp
    · have hstep := alookup_gridStep_ne (buildGridMap rows) r gid hg
      rw [hstep] at h
      obtain ⟨ihdom, l1, row0, l2, hsplit, hg0, hrep0, hstrict⟩ := ih rep h
      constructor
      · intro row hrow hrowgid
        rcases List.mem_append.mp hrow with hin | hin
        · exact ihdom row hin hrowgid
        · rw [List.mem_singleton.mp hin] at hrowgid
          exact absurd hrowgid hg
      · refine ⟨l1, row0, l2 ++ [r], ?_, hg0, hrep0, hstrict⟩
        rw [hsplit]
        simp

/-- Sample input rows mapping to the same grid cell, the later one with the
strictly larger population. -/
def rowA : CityRow :=
  { lat := 0, lng := 0, population := some 10, city_ascii := "A", country := "X" }

/-- Second sample row in the cell of `rowA`. -/
def rowB : CityRow :=
  { lat := 0, lng := 0, population := some 99, city_ascii := "B", country := "X" }

/-- Witness for C5: the theorem applied to the two sample rows shows the
stored representative (from `rowB`) dominates `rowA`'s population. -/
theorem dedup_representative_witness :
    popOf rowA ≤ (cityDataOfRow rowB).Population := by
  have hm : alookup (cityDataOfRow rowB).GridID (buildGridMap [rowA])
      = some (cityDataOfRow rowA) :=
    alookup_aset_self _ _ _
  have hlq : alookup (cityDataOfRow rowB).GridID (buildGridMap [rowA, rowB])
      = some (cityDataOfRow rowB) := by
    have hconcat : buildGridMap [rowA, rowB] = gridStep (buildGridMap [rowA]) rowB :=
      buildGridMap_concat [rowA] rowB
    rw [hconcat]
    simp only [gridStep, hm]
    rw [if_pos (by norm_num [cityDataOfRow, popOf, rowA, rowB])]
    exact alookup_aset_self _ _ _
  exact (dedup_representative [rowA, rowB] (cityDataOfRow rowB).GridID (cityDataOfRow rowB)
    hlq).1 rowA (by simp) rfl

lemma stride_eq : stride = 20 := by
  show (⌊(1 : ℚ) / ANCHOR_PERCENTAGE⌋).toNat = 20
  rw [show ⌊(1 : ℚ) / ANCHOR_PERCENTAGE⌋ = 20 by norm_num [ANCHOR_PERCENTAGE]]
  rfl

lemma mod20_mark_iff (i o : ℕ) (ho : o < 20) :
    (((i : ℤ) - o) % 20 = 0) ↔ ∃ k : ℕ, i = o + k * 20 := by
  constructor
  · intro hmod
    exact ⟨(i - o) / 20, by omega⟩
  · rintro ⟨k, rfl⟩
    omega

lemma pass1Mark_length (gs : List CityData) (o strd : ℕ) :
    (pass1Mark gs o strd).length = gs.length := by
  simp [pass1Mark]

lemma pass1Mark_get (gs : List CityData) (o strd i : ℕ)
    (hi : i < (pass1Mark gs o strd).length) (hb : i < gs.length) :
    (pass1Mark gs o strd).get ⟨i, hi⟩
      = { gs.get ⟨i, hb⟩ with IsAnchor := decide (((i : ℤ) - o) % strd = 0) } := by
  simp [pass1Mark, List.get_eq_getElem, List.getElem_map, List.getElem_enum]

lemma length_filter_enumFrom (p : ℕ → Bool) (l : List CityData) :
    ∀ n : ℕ, ((List.enumFrom n l).filter (fun x => p x.1)).length
      = ((List.range' n l.length) |>.filter p).length := by
  induction l with
  | nil => intro n; rfl
  | cons g rest ih =>
    intro n
    simp only [List.enumFrom, List.length_cons, List.range']
    rw [List.filter_cons, List.filter_cons]
    cases hp : p n
    · simpa [hp] using ih (n + 1)
    · simpa [hp] using ih (n + 1)

lemma pass1Mark_filter_length (gs : List CityData) (o strd : ℕ) :
    ((pass1Mark gs o strd).filter (fun g => g.IsAnchor)).length
      = ((List.range gs.length).filter
          (fun i : ℕ => decide (((i : ℤ) - (o : ℤ)) % (strd : ℤ) = 0))).length := by
  unfold pass1Mark
  rw [List.filter_map]
  rw [List.length_map]
  have hcomp : ((fun g : CityData => g.IsAnchor) ∘ fun p : ℕ × CityData =>
      { p.2 with IsAnchor := decide (((p.1 : ℤ) - o) % strd = 0) })
      = fun p : ℕ × CityData => decide (((p.1 : ℤ) - (o : ℤ)) % (strd : ℤ) = 0) := rfl
  rw [hcomp]
  rw [show gs.enum = List.enumFrom 0 gs from rfl]
  rw [length_filter_enumFrom (fun i : ℕ => decide (((i : ℤ) - (o : ℤ)) % (strd : ℤ) = 0)) gs 0]
  rw [← List.range_eq_range']

set_option maxRecDepth 8000 in
lemma count_range_1000 : ∀ o, o < 20 →
    ((List.range 1000).filter (fun i => decide (i % 20 = o))).length = 50 := by decide

lemma sortKeyLE_trans : ∀ a b c : CityData,
    sortKeyLE a b = true → sortKeyLE b c = true → sortKeyLE a c = true := by
  intro a b c hab hbc
  simp only [sortKeyLE, decide_eq_true_eq] at hab hbc ⊢
  rcases hab with h1 | ⟨he1, hl1⟩
  · rcases hbc with h2 | ⟨he2, hl2⟩
    · exact Or.inl (h2.trans h1)
    · exact Or.inl (by rw [← he2]; exact h1)
  · rcases hbc with h2 | ⟨he2, hl2⟩
    · exact Or.inl (by rw [he1]; exact h2)
    · exact Or.inr ⟨he1.trans he2, le_trans hl1 hl2⟩

lemma sortKeyLE_total : ∀ a b : CityData, (sortKeyLE a b || sortKeyLE b a) = true := by
  intro a b
  simp only [sortKeyLE, Bool.or_eq_true, decide_eq_true_eq]
  rcases lt_trichotomy a.Lat b.Lat with h | h | h
  · exact Or.inr (Or.inl h)
  · rcases le_total a.Lon b.Lon with hl | hl
    · exact Or.inl (Or.inr ⟨h, hl⟩)
    · exact Or.inr (Or.inr ⟨h.symm, hl⟩)
  · exact Or.inl (Or.inl h)

/-- C3: sampling Pass 1 sorts the representatives by (descending latitude,
ascending longitude), uses stride 20 for the configured fraction 0.05 (where
`int(1/f)` and `round(1/f)` agree), and given a drawn offset in [0, stride)
marks exactly the representatives at positions offset, offset+stride,
offset+2*stride, ... of the sorted order; on 1000 unique cells exactly 50
Pass-1 anchors result regardless of the offset drawn. -/
theorem pass1_systematic (grids : List CityData) (offset : ℕ) (hoff : offset < stride) :
    stride = 20 ∧
    (grids.mergeSort sortKeyLE).Pairwise (fun a b => sortKeyLE a b = true) ∧
    (∀ i (hi : i < (pass1Mark (grids.mergeSort sortKeyLE) offset stride).length),
      ((pass1Mark (grids.mergeSort sortKeyLE) offset stride).get ⟨i, hi⟩).IsAnchor = true
        ↔ ∃ k, i = offset + k * stride) ∧
    (grids.length = 1000 →
      ((pass1Mark (grids.mergeSort sortKeyLE) offset stride).filter
        (fun g => g.IsAnchor)).length = 50) := by
  have ho20 : offset < 20 := stride_eq ▸ hoff
  refine ⟨stride_eq, List.sorted_mergeSort sortKeyLE_trans sortKeyLE_total grids, ?_, ?_⟩
  · intro i hi
    have hb : i < (grids.mergeSort sortKeyLE).length := by
      rw [← pass1Mark_length (grids.mergeSort sortKeyLE) offset stride]
      exact hi
    rw [pass1Mark_get _ _ _ _ hi hb]
    show decide (((i : ℤ) - offset) % (stride : ℤ) = 0) = true ↔ _
    rw [stride_eq, decide_eq_true_eq]
    exact mod20_mark_iff i offset ho20
  · intro h1000
    rw [pass1Mark_filter_length]
    have hlen : (grids.mergeSort sortKeyLE).length = 1000 := by
      rw [(List.mergeSort_perm grids sortKeyLE).length_eq, h1000]
    rw [hlen]
    have hcongr : ∀ x ∈ List.range 1000,
        (fun i : ℕ => decide (((i : ℤ) - (offset : ℤ)) % (stride : ℤ) = 0)) x
          = (fun i : ℕ => decide (i % 20 = offset)) x := by
      intro x hx
      simp only
      rw [decide_eq_decide, stride_eq]
      omega
    rw [List.filter_congr hcongr]
    exact count_range_1000 offset ho20

/-- Witness for C3: the theorem applied to the empty representative list with
offset 0 yields the concrete stride value 20. -/
theorem pass1_systematic_witness : stride = 20 :=
  (pass1_systematic [] 0 (by rw [stride_eq]; norm_num)).1

lemma popGE_trans : ∀ a b c : CityData,
    popGE a b = true → popGE b c = true → popGE a c = true := by
  intro a b c h1 h2
  simp only [popGE, decide_eq_true_eq] at h1 h2 ⊢
  exact le_trans h2 h1

lemma popGE_total : ∀ a b : CityData, (popGE a b || popGE b a) = true := by
  intro a b
  simp only [popGE, Bool.or_eq_true, decide_eq_true_eq]
  exact le_total b.Population a.Population

/-- C6: sampling Pass 2 selects only representatives not marked in Pass 1, at
most `floor(unique_count * f)` of them, and precisely a maximal prefix of the
non-anchors sorted by descending population: the selection plus the dropped
rest is a permutation of the non-anchors, everything dropped has population
at most that of anything selected, and the selection itself is sorted in
descending population. -/
theorem pass2_properties (gs : List CityData) :
    (∀ g ∈ pass2Selected gs, g.IsAnchor = false) ∧
    (pass2Selected gs).length ≤ (⌊(gs.length : ℚ) * ANCHOR_PERCENTAGE⌋).toNat ∧
    (pass2Selected gs ++
        (pass2Pool gs).drop (min (pass2Pool gs).length (pass2Target gs.length))).Perm
      (gs.filter (fun g => !g.IsAnchor)) ∧
    (∀ a ∈ pass2Selected gs,
      ∀ b ∈ (pass2Pool gs).drop (min (pass2Pool gs).length (pass2Target gs.length)),
        b.Population ≤ a.Population) ∧
    (pass2Selected gs).Pairwise (fun a b => b.Population ≤ a.Population) := by
  have hsorted : (pass2Pool gs).Pairwise (fun a b => popGE a b = true) :=
    List.sorted_mergeSort popGE_trans popGE_total (gs.filter (fun g => !g.IsAnchor))
  have hsplit : pass2Selected gs ++
      (pass2Pool gs).drop (min (pass2Pool gs).length (pass2Target gs.length))
      = pass2Pool gs :=
    List.take_append_drop _ _
  refine ⟨?_, ?_, ?_, ?_, ?_⟩
  · intro g hg
    have hpool : g ∈ pass2Pool gs := List.mem_of_mem_take hg
    have hfil : g ∈ gs.filter (fun g => !g.IsAnchor) :=
      (List.mergeSort_perm _ popGE).subset hpool
    have := (List.mem_filter.mp hfil).2
    simpa using this
  · have := List.length_take (min (pass2Pool gs).length (pass2Target gs.length)) (pass2Pool gs)
    show (pass2Selected gs).length ≤ pass2Target gs.length
    rw [show pass2Selected gs
        = (pass2Pool gs).take (min (pass2Pool gs).length (pass2Target gs.length)) from rfl]
    rw [List.length_take]
    omega
  · rw [hsplit]
    exact List.mergeSort_perm _ popGE
  · intro a ha b hb
    have hpw := hsorted
    rw [← hsplit] at hpw
    have := (List.pairwise_append.mp hpw).2.2 a ha b hb
    simpa [popGE] using this
  · have : (pass2Selected gs).Pairwise (fun a b => popGE a b = true) :=
      List.Pairwise.sublist (List.take_sublist _ _) hsorted
    exact this.imp (fun h => by simpa [popGE] using h)

/-- Sample non-anchor representative for the Pass-2 witness. -/
def gLow : CityData :=
  { GridID := "GRID#5#5", City := "L", LocationName := "L", Country := "X",
    Lat := 5, Lon := 5, Population := 7, IsAnchor := false }

/-- Sample list of 20 representatives: one non-anchor (`gLow`) and 19 cells
already marked as anchors in Pass 1. -/
def gs20 : List CityData :=
  gLow :: List.replicate 19
    { GridID := "GRID#6#6", City := "H", LocationName := "H", Country := "X",
      Lat := 6, Lon := 6, Population := 9, IsAnchor := true }

/-- Witness for C6: on `gs20` the Pass-2 target is 1 and the pool is the
single non-anchor `gLow`, and the theorem applied to its selection shows it
was not a Pass-1 anchor. -/
theorem pass2_properties_witness : gLow.IsAnchor = false := by
  have hfil : gs20.filter (fun g => !g.IsAnchor) = [gLow] := by decide
  have hpool : pass2Pool gs20 = [gLow] := by
    show (gs20.filter (fun g => !g.IsAnchor)).mergeSort popGE = [gLow]
    rw [hfil]
    exact List.mergeSort_singleton gLow
  have hT : pass2Target gs20.length = 1 := by
    rw [show gs20.length = 20 from by decide]
    show (⌊(20 : ℚ) * ANCHOR_PERCENTAGE⌋).toNat = 1
    rw [show ⌊(20 : ℚ) * ANCHOR_PERCENTAGE⌋ = 1 by norm_num [ANCHOR_PERCENTAGE]]
    rfl
  have hmem : gLow ∈ pass2Selected gs20 := by
    show gLow ∈ (pass2Pool gs20).take (min (pass2Pool gs20).length (pass2Target gs20.length))
    rw [hpool, hT]
    exact List.mem_cons_self _ _
  exact (pass2_properties gs20).1 gLow hmem

end WeatherDB
